import Mathlib

/-!
Verification development for the SarmayaGhar real-estate pipeline.

Shallow embedding of the feature pipeline, payload validation, price
transforms, target encoding and ROI calculation found in:
  - server/ml/predict.py        (inference feature composer, price floor)
  - n/predict.py                (payload validator, predictor)
  - n/data_preprocessing.py     (validity filter and preprocessing pipeline)
  - scripts/kaggle_train.py     (manual target encoder, validity filter)
  - server/roi/utils/roiCalculator.py (ROI metrics and investment grade)

Numeric fields are modelled with ℚ where the Python code does ordinary
arithmetic and comparisons, and with ℝ where it uses log/exp.
-/

namespace SarmayaGhar

/-! ## ROI calculator (server/roi/utils/roiCalculator.py) -/

/-- `ROICalculator.calculate_monthly_roi`: monthly ROI percentage,
0 when `property_value <= 0`. -/
def calculate_monthly_roi (monthly_rent property_value : ℚ) : ℚ :=
  if property_value ≤ 0 then 0
  else (monthly_rent / property_value) * 100

/-- `ROICalculator.calculate_annual_roi`: annual ROI percentage,
0 when `property_value <= 0`. -/
def calculate_annual_roi (monthly_rent property_value : ℚ) : ℚ :=
  if property_value ≤ 0 then 0
  else
    let annual_rent := monthly_rent * 12
    (annual_rent / property_value) * 100

/-- `ROICalculator.calculate_rental_yield`: rental yield percentage,
0 when `property_value <= 0`. -/
def calculate_rental_yield (monthly_rent property_value : ℚ) : ℚ :=
  if property_value ≤ 0 then 0
  else
    let annual_rent := monthly_rent * 12
    (annual_rent / property_value) * 100

/-- `ROICalculator.calculate_cap_rate`: capitalization rate percentage,
0 when `property_value <= 0`. -/
def calculate_cap_rate (monthly_rent property_value monthly_expenses : ℚ) : ℚ :=
  if property_value ≤ 0 then 0
  else
    let annual_net_income := (monthly_rent - monthly_expenses) * 12
    (annual_net_income / property_value) * 100

/-- Letter investment grades, ordered from worst to best. -/
inductive Grade where
  | D
  | C
  | B
  | Bplus
  | A
  | Aplus
deriving DecidableEq, Repr

/-- Rank of a grade in the grade order (D lowest, A+ highest). -/
def Grade.rank : Grade → Nat
  | .D => 0
  | .C => 1
  | .B => 2
  | .Bplus => 3
  | .A => 4
  | .Aplus => 5

/-- Result of `ROICalculator.get_investment_grade`. -/
structure InvestmentGradeResult where
  grade : Grade
  recommendation : String
deriving DecidableEq, Repr

/-- `ROICalculator.get_investment_grade`: the top-down first-match rule
table over (annual_roi, cap_rate, irr). -/
def get_investment_grade (annual_roi cap_rate irr : ℚ) : InvestmentGradeResult :=
  if 12 ≤ annual_roi ∧ 8 ≤ cap_rate ∧ 15 ≤ irr then
    ⟨.Aplus, "Excellent investment opportunity"⟩
  else if 10 ≤ annual_roi ∧ 6 ≤ cap_rate ∧ 12 ≤ irr then
    ⟨.A, "Very good investment opportunity"⟩
  else if 8 ≤ annual_roi ∧ 5 ≤ cap_rate ∧ 10 ≤ irr then
    ⟨.Bplus, "Good investment opportunity"⟩
  else if 6 ≤ annual_roi ∧ 4 ≤ cap_rate ∧ 8 ≤ irr then
    ⟨.B, "Moderate investment opportunity"⟩
  else if 4 ≤ annual_roi ∧ 3 ≤ cap_rate ∧ 6 ≤ irr then
    ⟨.C, "Fair investment opportunity"⟩
  else
    ⟨.D, "Poor investment opportunity"⟩

/-- Claim C10: for every `property_value ≤ 0` and any rent/expense inputs, the
ROI ratio functions `calculate_monthly_roi`, `calculate_annual_roi`,
`calculate_rental_yield` and `calculate_cap_rate` all return 0 instead of
dividing by zero; they are total over all rational inputs. -/
theorem roi_ratios_zero_on_nonpositive_value
    (monthly_rent property_value monthly_expenses : ℚ)
    (h : property_value ≤ 0) :
    calculate_monthly_roi monthly_rent property_value = 0 ∧
    calculate_annual_roi monthly_rent property_value = 0 ∧
    calculate_rental_yield monthly_rent property_value = 0 ∧
    calculate_cap_rate monthly_rent property_value monthly_expenses = 0 := by
  refine ⟨?_, ?_, ?_, ?_⟩ <;>
    simp [calculate_monthly_roi, calculate_annual_roi, calculate_rental_yield,
      calculate_cap_rate, if_pos h]

/-- Witness for C10: concrete evaluation at `property_value = 0`,
`monthly_rent = 50000`, `monthly_expenses = 5000`. -/
theorem roi_ratios_zero_on_nonpositive_value_witness :
    (0 : ℚ) ≤ 0 ∧
    (calculate_monthly_roi 50000 0 = 0 ∧
     calculate_annual_roi 50000 0 = 0 ∧
     calculate_rental_yield 50000 0 = 0 ∧
     calculate_cap_rate 50000 0 5000 = 0) :=
  ⟨le_refl 0, roi_ratios_zero_on_nonpositive_value 50000 0 5000 (le_refl 0)⟩

/-- If the A+ tier condition holds, the assigned grade has rank at least 5. -/
lemma grade_rank_ge_five (r c i : ℚ) (h : 12 ≤ r ∧ 8 ≤ c ∧ 15 ≤ i) :
    5 ≤ (get_investment_grade r c i).grade.rank := by
  unfold get_investment_grade; split_ifs <;> simp [Grade.rank]

/-- If the A tier condition holds, the assigned grade has rank at least 4. -/
lemma grade_rank_ge_four (r c i : ℚ) (h : 10 ≤ r ∧ 6 ≤ c ∧ 12 ≤ i) :
    4 ≤ (get_investment_grade r c i).grade.rank := by
  unfold get_investment_grade; split_ifs <;> simp [Grade.rank]

/-- If the B+ tier condition holds, the assigned grade has rank at least 3. -/
lemma grade_rank_ge_three (r c i : ℚ) (h : 8 ≤ r ∧ 5 ≤ c ∧ 10 ≤ i) :
    3 ≤ (get_investment_grade r c i).grade.rank := by
  unfold get_investment_grade; split_ifs <;> simp [Grade.rank]

/-- If the B tier condition holds, the assigned grade has rank at least 2. -/
lemma grade_rank_ge_two (r c i : ℚ) (h : 6 ≤ r ∧ 4 ≤ c ∧ 8 ≤ i) :
    2 ≤ (get_investment_grade r c i).grade.rank := by
  unfold get_investment_grade; split_ifs <;> simp [Grade.rank]

/-- If the C tier condition holds, the assigned grade has rank at least 1. -/
lemma grade_rank_ge_one (r c i : ℚ) (h : 4 ≤ r ∧ 3 ≤ c ∧ 6 ≤ i) :
    1 ≤ (get_investment_grade r c i).grade.rank := by
  unfold get_investment_grade; split_ifs <;> simp [Grade.rank]

/-- The assigned grade never has rank above 5. -/
lemma grade_rank_le_five (r c i : ℚ) :
    (get_investment_grade r c i).grade.rank ≤ 5 := by
  unfold get_investment_grade; split_ifs <;> simp [Grade.rank]

/-- If the A+ tier condition fails, the assigned grade has rank at most 4. -/
lemma grade_rank_le_four (r c i : ℚ) (h5 : ¬(12 ≤ r ∧ 8 ≤ c ∧ 15 ≤ i)) :
    (get_investment_grade r c i).grade.rank ≤ 4 := by
  unfold get_investment_grade; split_ifs <;> simp [Grade.rank]

/-- If the A+ and A tier conditions fail, the rank is at most 3. -/
lemma grade_rank_le_three (r c i : ℚ) (h5 : ¬(12 ≤ r ∧ 8 ≤ c ∧ 15 ≤ i))
    (h4 : ¬(10 ≤ r ∧ 6 ≤ c ∧ 12 ≤ i)) :
    (get_investment_grade r c i).grade.rank ≤ 3 := by
  unfold get_investment_grade; split_ifs <;> simp [Grade.rank]

/-- If the A+, A and B+ tier conditions fail, the rank is at most 2. -/
lemma grade_rank_le_two (r c i : ℚ) (h5 : ¬(12 ≤ r ∧ 8 ≤ c ∧ 15 ≤ i))
    (h4 : ¬(10 ≤ r ∧ 6 ≤ c ∧ 12 ≤ i)) (h3 : ¬(8 ≤ r ∧ 5 ≤ c ∧ 10 ≤ i)) :
    (get_investment_grade r c i).grade.rank ≤ 2 := by
  unfold get_investment_grade; split_ifs <;> simp [Grade.rank]

/-- If all tier conditions down to B fail, the rank is at most 1. -/
lemma grade_rank_le_one (r c i : ℚ) (h5 : ¬(12 ≤ r ∧ 8 ≤ c ∧ 15 ≤ i))
    (h4 : ¬(10 ≤ r ∧ 6 ≤ c ∧ 12 ≤ i)) (h3 : ¬(8 ≤ r ∧ 5 ≤ c ∧ 10 ≤ i))
    (h2 : ¬(6 ≤ r ∧ 4 ≤ c ∧ 8 ≤ i)) :
    (get_investment_grade r c i).grade.rank ≤ 1 := by
  unfold get_investment_grade; split_ifs <;> simp [Grade.rank]

/-- If every tier condition fails, the rank is 0 (grade D). -/
lemma grade_rank_le_zero (r c i : ℚ) (h5 : ¬(12 ≤ r ∧ 8 ≤ c ∧ 15 ≤ i))
    (h4 : ¬(10 ≤ r ∧ 6 ≤ c ∧ 12 ≤ i)) (h3 : ¬(8 ≤ r ∧ 5 ≤ c ∧ 10 ≤ i))
    (h2 : ¬(6 ≤ r ∧ 4 ≤ c ∧ 8 ≤ i)) (h1 : ¬(4 ≤ r ∧ 3 ≤ c ∧ 6 ≤ i)) :
    (get_investment_grade r c i).grade.rank ≤ 0 := by
  unfold get_investment_grade; split_ifs <;> simp [Grade.rank]

/-- Claim C9: the investment grade is monotone in its three inputs: raising
annual ROI, cap rate and IRR simultaneously never lowers the letter grade
assigned by `get_investment_grade`'s first-match rule table. -/
theorem investment_grade_monotone
    (r c i r' c' i' : ℚ) (hr : r ≤ r') (hc : c ≤ c') (hi : i ≤ i') :
    (get_investment_grade r c i).grade.rank ≤
      (get_investment_grade r' c' i').grade.rank := by
  have lift : ∀ a b d : ℚ, (a ≤ r ∧ b ≤ c ∧ d ≤ i) → (a ≤ r' ∧ b ≤ c' ∧ d ≤ i') :=
    fun a b d h => ⟨h.1.trans hr, h.2.1.trans hc, h.2.2.trans hi⟩
  by_cases h5 : 12 ≤ r ∧ 8 ≤ c ∧ 15 ≤ i
  · exact le_trans (grade_rank_le_five r c i)
      (grade_rank_ge_five r' c' i' (lift _ _ _ h5))
  by_cases h4 : 10 ≤ r ∧ 6 ≤ c ∧ 12 ≤ i
  · exact le_trans (grade_rank_le_four r c i h5)
      (grade_rank_ge_four r' c' i' (lift _ _ _ h4))
  by_cases h3 : 8 ≤ r ∧ 5 ≤ c ∧ 10 ≤ i
  · exact le_trans (grade_rank_le_three r c i h5 h4)
      (grade_rank_ge_three r' c' i' (lift _ _ _ h3))
  by_cases h2 : 6 ≤ r ∧ 4 ≤ c ∧ 8 ≤ i
  · exact le_trans (grade_rank_le_two r c i h5 h4 h3)
      (grade_rank_ge_two r' c' i' (lift _ _ _ h2))
  by_cases h1 : 4 ≤ r ∧ 3 ≤ c ∧ 6 ≤ i
  · exact le_trans (grade_rank_le_one r c i h5 h4 h3 h2)
      (grade_rank_ge_one r' c' i' (lift _ _ _ h1))
  exact le_trans (grade_rank_le_zero r c i h5 h4 h3 h2 h1) (Nat.zero_le _)

/-- Witness for C9: a triple meeting the C tier compared with one meeting
the A+ tier; the grade rank does not decrease. -/
theorem investment_grade_monotone_witness :
    (4 : ℚ) ≤ 12 ∧ (3 : ℚ) ≤ 8 ∧ (6 : ℚ) ≤ 15 ∧
    (get_investment_grade 4 3 6).grade.rank ≤
      (get_investment_grade 12 8 15).grade.rank :=
  ⟨by norm_num, by norm_num, by norm_num,
    investment_grade_monotone 4 3 6 12 8 15 (by norm_num) (by norm_num)
      (by norm_num)⟩

/-! ## Inference-time feature composer (server/ml/predict.py, `encode_features`) -/

/-- An inference request as consumed by `encode_features`. It carries no
price field: the price is the unknown being predicted. -/
structure PredictRequest where
  propertyType : String
  location : String
  neighbourhood : String
  city : String
  province : String
  areaMarla : ℚ
  bedrooms : ℚ
  bathrooms : ℚ
  yearBuilt : ℤ

/-- The loaded encoder dictionaries; `none` models a key absent from the
pickled mapping (Python `dict.get(key, 0)` then supplies the default 0). -/
structure Encoders where
  property_type_encoder : String → Option ℚ
  location_encoder : String → Option ℚ
  city_encoder : String → Option ℚ
  province_encoder : String → Option ℚ
  area_category_encoder : String → Option ℚ

/-- Area bucket computed from `areaMarla` in `encode_features`. -/
def area_category (area_marla : ℚ) : String :=
  if 20 < area_marla then "20+ Marla"
  else if 15 ≤ area_marla then "15-20 Marla"
  else if 10 ≤ area_marla then "10-15 Marla"
  else if 5 ≤ area_marla then "5-10 Marla"
  else "0-5 Marla"

/-- Python `needle in hay` on strings: substring containment. -/
def strContains (needle hay : String) : Bool :=
  decide (needle.toList <:+: hay.toList)

/-- The premium-area name list from `encode_features`. -/
def premium_areas : List String :=
  ["DHA", "Bahria", "Gulberg", "Clifton", "Defence", "Cantonment"]

/-- Location premium flag: 1 when any premium-area name occurs in the
lower-cased neighbourhood or location, else 0. -/
def location_premium (neighbourhood location : String) : ℚ :=
  if premium_areas.any (fun area =>
      strContains area neighbourhood.toLower || strContains area location.toLower)
  then 1 else 0

/-- The simplified city-coordinate table, defaulting to Karachi. -/
def city_coords (city : String) : ℚ × ℚ :=
  if city = "Karachi" then (24.8607, 67.0011)
  else if city = "Lahore" then (31.5204, 74.3587)
  else if city = "Islamabad" then (33.6844, 73.0479)
  else if city = "Faisalabad" then (31.4504, 73.1350)
  else if city = "Rawalpindi" then (33.5651, 73.0169)
  else (24.8607, 67.0011)

/-- Property age: `max(0, current_year - yearBuilt)` with current year 2024. -/
def property_age (yearBuilt : ℤ) : ℤ := max 0 (2024 - yearBuilt)

/-- `bath_bedroom_ratio = bathrooms / bedrooms if bedrooms > 0 else 0`. -/
def bath_bedroom_ratio (bathrooms bedrooms : ℚ) : ℚ :=
  if 0 < bedrooms then bathrooms / bedrooms else 0

/-- `area_size_normalized = min(areaMarla / 50, 1)`. -/
def area_size_normalized (areaMarla : ℚ) : ℚ := min (areaMarla / 50) 1

/-- The inference-time feature vector composed by `encode_features`, in
training order. Entry 11 is the `price_per_unit` slot, held at the
constant placeholder 0. -/
def encode_features (request : PredictRequest) (encoders : Encoders) : List ℚ :=
  let property_type_encoded := (encoders.property_type_encoder request.propertyType).getD 0
  let location_encoded := (encoders.location_encoder request.neighbourhood).getD
      ((encoders.location_encoder request.location).getD 0)
  let city_encoded := (encoders.city_encoder request.city).getD 0
  let province_encoded := (encoders.province_encoder request.province).getD 0
  let purpose_encoded : ℚ := 0
  let area_category_encoded :=
    (encoders.area_category_encoder (area_category request.areaMarla)).getD 0
  let coords := city_coords request.city
  [property_type_encoded,
   location_encoded,
   city_encoded,
   province_encoded,
   purpose_encoded,
   area_category_encoded,
   coords.1,
   coords.2,
   request.bathrooms,
   request.bedrooms,
   request.areaMarla,
   0,
   location_premium request.neighbourhood request.location,
   (property_age request.yearBuilt : ℚ),
   bath_bedroom_ratio request.bathrooms request.bedrooms,
   area_size_normalized request.areaMarla]

/-- Claim C1: for every inference request and encoder set, the
price-derived `price_per_unit` slot (index 11) of the composed feature
vector is the constant placeholder 0, and the vector has its fixed length
16. The request type carries no price field, so no entry can be computed
from a price. -/
theorem price_per_unit_placeholder_zero
    (request : PredictRequest) (encoders : Encoders) :
    (encode_features request encoders).get? 11 = some 0 ∧
    (encode_features request encoders).length = 16 :=
  ⟨rfl, rfl⟩

/-- A concrete request with `bedrooms = 0`, `bathrooms = 2`, `area = 5`. -/
def zeroBedroomsRequest : PredictRequest :=
  { propertyType := "House"
    location := "X"
    neighbourhood := "X"
    city := "Lahore"
    province := "Punjab"
    areaMarla := 5
    bedrooms := 0
    bathrooms := 2
    yearBuilt := 2020 }

/-- Encoders whose every mapping is empty. -/
def emptyEncoders : Encoders :=
  { property_type_encoder := fun _ => none
    location_encoder := fun _ => none
    city_encoder := fun _ => none
    province_encoder := fun _ => none
    area_category_encoder := fun _ => none }

/-- Counterexample to claim C2: at `bedrooms = 0`, `bathrooms = 2` the
composed `bathBedroomRatio` feature (index 14) is 0, not `bathrooms = 2`:
the code's divide-by-zero guard substitutes 0, not `max(bedrooms, 1)`. -/
theorem bath_bedroom_ratio_counterexample :
    zeroBedroomsRequest.bedrooms = 0 ∧
    zeroBedroomsRequest.bathrooms = 2 ∧
    (encode_features zeroBedroomsRequest emptyEncoders).get? 14 = some 0 ∧
    (0 : ℚ) ≠ 2 := by
  refine ⟨rfl, rfl, ?_, by norm_num⟩
  rfl

/-- Claim C2 (amended): for every record with `bedrooms = 0` the derived
`bathBedroomRatio` feature equals 0 (the guard returns the constant 0
rather than dividing); in particular `bedrooms = 0`, `bathrooms = 2`
yields ratio 0. -/
theorem bath_bedroom_ratio_zero_when_no_bedrooms
    (request : PredictRequest) (encoders : Encoders)
    (h : request.bedrooms = 0) :
    (encode_features request encoders).get? 14 = some 0 := by
  have hv : (encode_features request encoders).get? 14 =
      some (bath_bedroom_ratio request.bathrooms request.bedrooms) := rfl
  rw [hv, h]
  simp [bath_bedroom_ratio]

/-- Witness for the amended C2 at the concrete zero-bedroom request. -/
theorem bath_bedroom_ratio_zero_when_no_bedrooms_witness :
    zeroBedroomsRequest.bedrooms = 0 ∧
    (encode_features zeroBedroomsRequest emptyEncoders).get? 14 = some 0 :=
  ⟨rfl, bath_bedroom_ratio_zero_when_no_bedrooms zeroBedroomsRequest emptyEncoders rfl⟩

/-! ## Price transform (n/data_preprocessing.py, n/predict.py, server/ml/predict.py) -/

/-- `np.log1p` as used by `DataPreprocessor.applyLogTransform`:
`logPrice = log(1 + price)`. -/
noncomputable def log1p (x : ℝ) : ℝ := Real.log (1 + x)

/-- `np.expm1` as used by `PropertyPricePredictor.predictPrice`:
`price = exp(logPrice) - 1`. -/
noncomputable def expm1 (x : ℝ) : ℝ := Real.exp x - 1

/-- Python `int(x)` on a float: truncation toward zero. -/
noncomputable def pyInt (x : ℝ) : ℤ := if 0 ≤ x then ⌊x⌋ else ⌈x⌉

/-- The dictionary returned by `PropertyPricePredictor.predictPrice`. -/
structure PredictionResult where
  predictedPrice : ℤ
  priceMin : ℤ
  priceMax : ℤ
  confidence : ℤ

/-- `PropertyPricePredictor.predictPrice` (n/predict.py): inverse log
transform, ±15% uncertainty band, heuristic confidence. No price floor is
applied on this path. -/
noncomputable def predictPrice (logPricePred : ℝ) : PredictionResult :=
  let predictedPrice := expm1 logPricePred
  let uncertaintyFactor : ℝ := 0.15
  let priceMin := predictedPrice * (1 - uncertaintyFactor)
  let priceMax := predictedPrice * (1 + uncertaintyFactor)
  let confidence := max 70 (min 95 (85 - |logPricePred - 16.0| * 5))
  { predictedPrice := pyInt predictedPrice
    priceMin := pyInt priceMin
    priceMax := pyInt priceMax
    confidence := pyInt confidence }

/-- `prediction = max(1000000, prediction)` in server/ml/predict.py `main`.
The model output on this path is already in price space; no `expm1` is
applied to it. -/
def serverPrediction (prediction : ℚ) : ℚ := max 1000000 prediction

/-- Counterexample to claim C3: the n-pipeline's reported price is not
`max(expm1(logPrice), 1000000)`: at `logPrice = 0` it reports 0, below the
claimed fixed floor. -/
theorem display_price_floor_counterexample :
    (predictPrice 0).predictedPrice = 0 ∧
    max (expm1 0) 1000000 = 1000000 ∧
    ((predictPrice 0).predictedPrice : ℝ) ≠ max (expm1 0) 1000000 := by
  have h0 : expm1 0 = 0 := by simp [expm1, Real.exp_zero]
  have hp : (predictPrice 0).predictedPrice = pyInt (expm1 0) := rfl
  have hz : (predictPrice 0).predictedPrice = 0 := by
    rw [hp, h0]; simp [pyInt]
  have hm : max (expm1 0) 1000000 = 1000000 := by
    rw [h0]; exact max_eq_right (by norm_num)
  refine ⟨hz, hm, ?_⟩
  rw [hz, hm]
  norm_num

/-- Claim C3 (amended): the two reporting paths each provide only half of
the claimed formula. The server script's reported price is floored at
1,000,000 but no `expm1` is applied to the model output, while the
n-pipeline predictor reports `int(expm1(logPrice))` with no floor at all
(so it can report prices below 1,000,000). -/
theorem price_reporting_split
    (prediction : ℚ) (logPricePred : ℝ) :
    1000000 ≤ serverPrediction prediction ∧
    (predictPrice logPricePred).predictedPrice = pyInt (expm1 logPricePred) :=
  ⟨le_max_left _ _, rfl⟩

/-- Claim C4: the price transform round-trips exactly on positive prices:
`expm1 (log1p p) = p` for every `p > 0`, where `log1p` is the training
target transform and `expm1` the inverse transform applied at prediction
time. -/
theorem log_transform_roundtrip (p : ℝ) (hp : 0 < p) :
    expm1 (log1p p) = p := by
  unfold expm1 log1p
  rw [Real.exp_log (by linarith)]
  ring

/-- Witness for C4 at the concrete price 3. -/
theorem log_transform_roundtrip_witness :
    (0 : ℝ) < 3 ∧ expm1 (log1p 3) = 3 :=
  ⟨by norm_num, log_transform_roundtrip 3 (by norm_num)⟩

/-! ## Manual target encoder (scripts/kaggle_train.py, `ManualTargetEncoder`) -/

/-- The fitted state of `ManualTargetEncoder`: the smoothing constant, the
corpus mean of the target, and the per-category smoothed codes (`none`
models a category absent from the fitted `encoding_map` dictionary). -/
structure ManualTargetEncoder where
  smoothing : ℝ
  global_mean : ℝ
  encoding_map : String → Option ℝ

/-- pandas `.mean()` over a list of reals. -/
noncomputable def listMean (l : List ℝ) : ℝ := l.sum / l.length

/-- `ManualTargetEncoder.fit`: per-category count and mean of the target,
smoothed toward the corpus mean:
`(count * mean + smoothing * global_mean) / (count + smoothing)`. -/
noncomputable def fitTargetEncoder (smoothing : ℝ)
    (data : List (String × ℝ)) : ManualTargetEncoder :=
  let global_mean := listMean (data.map Prod.snd)
  { smoothing := smoothing
    global_mean := global_mean
    encoding_map := fun loc =>
      let grp := (data.filter (fun p => p.1 == loc)).map Prod.snd
      if grp.length = 0 then none
      else some ((grp.length * listMean grp + smoothing * global_mean) /
        (grp.length + smoothing)) }

/-- `ManualTargetEncoder.transform` on one value:
`X.map(encoding_map).fillna(global_mean)`. -/
noncomputable def transformTargetEncoder (enc : ManualTargetEncoder)
    (x : String) : ℝ :=
  (enc.encoding_map x).getD enc.global_mean

/-- The C6 scenario corpus: location A with prices 10 and 20, location B
with price 100; targets are `log1p` of the prices. -/
noncomputable def scenarioData : List (String × ℝ) :=
  [("A", log1p 10), ("A", log1p 20), ("B", log1p 100)]

/-- The encoder fitted on the scenario corpus with smoothing 1. -/
noncomputable def scenarioEncoder : ManualTargetEncoder :=
  fitTargetEncoder 1 scenarioData

/-- Claim C6: the fitted code of B is
`(count * mean + smoothing * globalMean) / (count + smoothing)` with
count 1, mean `log1p 100`, smoothing 1; since B's group mean exceeds the
corpus mean of log-prices, the code lies strictly between the global mean
and `log1p 100` (in particular it is not `log1p 100`). -/
theorem target_encoder_smoothing_scenario :
    scenarioEncoder.global_mean = (log1p 10 + log1p 20 + log1p 100) / 3 ∧
    scenarioEncoder.encoding_map "B" =
      some ((1 * log1p 100 + 1 * scenarioEncoder.global_mean) / (1 + 1)) ∧
    scenarioEncoder.global_mean <
      (1 * log1p 100 + 1 * scenarioEncoder.global_mean) / (1 + 1) ∧
    (1 * log1p 100 + 1 * scenarioEncoder.global_mean) / (1 + 1) < log1p 100 := by
  have h10 : log1p 10 < log1p 100 := by
    unfold log1p
    exact Real.log_lt_log (by norm_num) (by norm_num)
  have h20 : log1p 20 < log1p 100 := by
    unfold log1p
    exact Real.log_lt_log (by norm_num) (by norm_num)
  have hg : scenarioEncoder.global_mean = (log1p 10 + log1p 20 + log1p 100) / 3 := by
    simp [scenarioEncoder, fitTargetEncoder, scenarioData, listMean]
    ring
  have hmap : scenarioEncoder.encoding_map "B" =
      some ((1 * log1p 100 + 1 * scenarioEncoder.global_mean) / (1 + 1)) := by
    simp [scenarioEncoder, fitTargetEncoder, scenarioData, listMean]
    try ring
  refine ⟨hg, hmap, ?_, ?_⟩ <;> rw [hg] <;> linarith

/-- Claim C7: encoder transforms are total on categorical values: a
location unseen at fit time resolves to the target encoder's global mean,
and a property type or city missing from the server's label-encoder
mappings resolves to the default code 0 in the composed feature vector —
never an error. -/
theorem unseen_category_defaults
    (smoothing : ℝ) (data : List (String × ℝ)) (loc : String)
    (hloc : ∀ p ∈ data, p.1 ≠ loc)
    (request : PredictRequest) (encoders : Encoders)
    (hpt : encoders.property_type_encoder request.propertyType = none)
    (hcity : encoders.city_encoder request.city = none) :
    transformTargetEncoder (fitTargetEncoder smoothing data) loc =
      (fitTargetEncoder smoothing data).global_mean ∧
    (encode_features request encoders).get? 0 = some 0 ∧
    (encode_features request encoders).get? 2 = some 0 := by
  refine ⟨?_, ?_, ?_⟩
  · have hf : data.filter (fun p => p.1 == loc) = [] := by
      rw [List.filter_eq_nil_iff]
      intro a ha
      simpa using hloc a ha
    simp [transformTargetEncoder, fitTargetEncoder, hf]
  · have h0 : (encode_features request encoders).get? 0 =
        some ((encoders.property_type_encoder request.propertyType).getD 0) := rfl
    rw [h0, hpt]
    rfl
  · have h2 : (encode_features request encoders).get? 2 =
        some ((encoders.city_encoder request.city).getD 0) := rfl
    rw [h2, hcity]
    rfl

/-- Witness for C7: the unseen location "C" on the scenario corpus, and a
request whose property type and city miss every (empty) encoder map. -/
theorem unseen_category_defaults_witness :
    transformTargetEncoder (fitTargetEncoder 1 scenarioData) "C" =
      (fitTargetEncoder 1 scenarioData).global_mean ∧
    (encode_features zeroBedroomsRequest emptyEncoders).get? 0 = some 0 ∧
    (encode_features zeroBedroomsRequest emptyEncoders).get? 2 = some 0 :=
  unseen_category_defaults 1 scenarioData "C"
    (by intro p hp; fin_cases hp <;> simp)
    zeroBedroomsRequest emptyEncoders rfl rfl

/-! ## Payload validator (n/predict.py, `PayloadValidator.validatePayload`) -/

/-- Python `sep.join(xs)`. -/
def pyJoin (sep : String) : List String → String
  | [] => ""
  | [a] => a
  | a :: rest => a ++ sep ++ pyJoin sep rest

/-- Python `str.strip()`: drop leading and trailing whitespace. -/
def pyStrip (s : String) : String :=
  ⟨((s.toList.dropWhile Char.isWhitespace).reverse.dropWhile
      Char.isWhitespace).reverse⟩

/-- An inbound API payload; `none` models an absent key. -/
structure Payload where
  propertyType : Option String
  city : Option String
  areaMarla : Option ℚ
  bedrooms : Option ℤ
  bathrooms : Option ℤ
  location : Option String
  purpose : Option String
deriving DecidableEq

/-- The cleaned payload assembled during validation. -/
structure CleanedPayload where
  propertyType : String
  city : String
  areaMarla : ℚ
  bedrooms : ℤ
  bathrooms : ℤ
  location : String
  purpose : String
deriving DecidableEq

/-- `PayloadValidator.VALID_CITIES`. -/
def VALID_CITIES : List String := ["Karachi", "Lahore", "Islamabad"]

/-- `PayloadValidator.VALID_PROPERTY_TYPES`. -/
def VALID_PROPERTY_TYPES : List String := ["House", "Flat", "Penthouse"]

/-- `PayloadValidator.VALID_PURPOSES`. -/
def VALID_PURPOSES : List String := ["For Sale", "For Rent"]

/-- The required fields absent from the payload, in required-field order. -/
def missingFields (p : Payload) : List String :=
  (if p.propertyType.isNone then ["propertyType"] else []) ++
  (if p.city.isNone then ["city"] else []) ++
  (if p.areaMarla.isNone then ["areaMarla"] else []) ++
  (if p.bedrooms.isNone then ["bedrooms"] else []) ++
  (if p.bathrooms.isNone then ["bathrooms"] else [])

/-- The propertyType error message (Python list repr in the f-string). -/
def propertyTypeError : String :=
  "Invalid propertyType. Must be one of: [\x27House\x27, \x27Flat\x27, \x27Penthouse\x27]"

/-- The city error message (Python list repr in the f-string). -/
def cityError : String :=
  "Invalid city. Must be one of: [\x27Karachi\x27, \x27Lahore\x27, \x27Islamabad\x27]"

/-- The aggregated field-level error messages, in source order
(propertyType, city, areaMarla, bedrooms, bathrooms). -/
def payloadErrors (p : Payload) : List String :=
  (if pyStrip (p.propertyType.getD "") ∉ VALID_PROPERTY_TYPES then
    [propertyTypeError] else []) ++
  (if pyStrip (p.city.getD "") ∉ VALID_CITIES then [cityError] else []) ++
  (let areaMarla := p.areaMarla.getD 0
   if areaMarla ≤ 0 then ["areaMarla must be greater than 0"]
   else if 100 < areaMarla then ["areaMarla cannot exceed 100 Marla"]
   else []) ++
  (let bedrooms := p.bedrooms.getD 0
   if bedrooms < 0 then ["bedrooms cannot be negative"]
   else if 10 < bedrooms then ["bedrooms cannot exceed 10"]
   else []) ++
  (let bathrooms := p.bathrooms.getD 0
   if bathrooms < 0 then ["bathrooms cannot be negative"]
   else if 10 < bathrooms then ["bathrooms cannot exceed 10"]
   else [])

/-- The cleaned payload as built by `validatePayload`, including the
location and purpose defaults. -/
def cleanedOf (p : Payload) : CleanedPayload :=
  { propertyType := pyStrip (p.propertyType.getD "")
    city := pyStrip (p.city.getD "")
    areaMarla := p.areaMarla.getD 0
    bedrooms := p.bedrooms.getD 0
    bathrooms := p.bathrooms.getD 0
    location :=
      (let location := p.location.getD "Other_Location"
       if location = "" then "Other_Location" else location)
    purpose :=
      (let purpose := p.purpose.getD "For Sale"
       if purpose ∈ VALID_PURPOSES then purpose else "For Sale") }

/-- `PayloadValidator.validatePayload`: returns
`(isValid, errorMessage, cleanedPayload)`. Missing required fields return
early with their own joined message; otherwise field-value errors are
aggregated and joined with `"; "`. -/
def validatePayload (p : Payload) : Bool × String × Option CleanedPayload :=
  let missing := missingFields p
  if missing ≠ [] then
    (false, "Missing required fields: " ++ pyJoin ", " missing, none)
  else
    let errors := payloadErrors p
    if errors ≠ [] then (false, pyJoin "; " errors, none)
    else (true, "Valid", some (cleanedOf p))

/-- The message `msg` mentions `field` as a substring. -/
def mentions (msg field : String) : Prop :=
  field.toList <:+: msg.toList

instance (msg field : String) : Decidable (mentions msg field) :=
  List.decidableInfix _ _

/-- Names of the payload fields whose present values fail validation, in
source order. -/
def invalidFields (p : Payload) : List String :=
  (if pyStrip (p.propertyType.getD "") ∉ VALID_PROPERTY_TYPES then
    ["propertyType"] else []) ++
  (if pyStrip (p.city.getD "") ∉ VALID_CITIES then ["city"] else []) ++
  (if p.areaMarla.getD 0 ≤ 0 ∨ 100 < p.areaMarla.getD 0 then
    ["areaMarla"] else []) ++
  (if p.bedrooms.getD 0 < 0 ∨ 10 < p.bedrooms.getD 0 then
    ["bedrooms"] else []) ++
  (if p.bathrooms.getD 0 < 0 ∨ 10 < p.bathrooms.getD 0 then
    ["bathrooms"] else [])

/-- String append distributes over `toList`. -/
lemma str_toList_append (a b : String) :
    (a ++ b).toList = a.toList ++ b.toList :=
  String.data_append a b

/-- Every member of a joined list is a substring of the join. -/
lemma infix_pyJoin (e : String) (sep : String) :
    ∀ L : List String, e ∈ L → e.toList <:+: (pyJoin sep L).toList := by
  intro L
  induction L with
  | nil => intro h; cases h
  | cons a rest ih =>
    intro he
    cases rest with
    | nil =>
      have : e = a := by simpa using he
      subst this
      simp [pyJoin]
    | cons b t =>
      rcases List.mem_cons.mp he with he | he
      · subst he
        show e.toList <:+: (e ++ sep ++ pyJoin sep (b :: t)).toList
        rw [str_toList_append, str_toList_append]
        exact ((List.prefix_append e.toList sep.toList).trans
          (List.prefix_append (e.toList ++ sep.toList) (pyJoin sep (b :: t)).toList)).isInfix
      · have hin : e.toList <:+: (pyJoin sep (b :: t)).toList := ih he
        have hsuf : (pyJoin sep (b :: t)).toList <:+:
            (a ++ sep ++ pyJoin sep (b :: t)).toList := by
          rw [str_toList_append, str_toList_append]
          exact (List.suffix_append (a.toList ++ sep.toList)
            (pyJoin sep (b :: t)).toList).isInfix
        exact hin.trans hsuf

/-- Each invalid field contributes an error message that names it. -/
lemma invalid_field_has_error (p : Payload) :
    ∀ f ∈ invalidFields p, ∃ e ∈ payloadErrors p, f.toList <:+: e.toList := by
  intro f hf
  unfold invalidFields at hf
  rw [List.append_assoc, List.append_assoc, List.append_assoc] at hf
  rcases List.mem_append.mp hf with hf | hf
  · by_cases hc : pyStrip (p.propertyType.getD "") ∉ VALID_PROPERTY_TYPES
    · rw [if_pos hc] at hf
      have : f = "propertyType" := by simpa using hf
      subst this
      refine ⟨propertyTypeError, ?_, by decide⟩
      simp [payloadErrors, hc]
    · rw [if_neg hc] at hf
      cases hf
  rcases List.mem_append.mp hf with hf | hf
  · by_cases hc : pyStrip (p.city.getD "") ∉ VALID_CITIES
    · rw [if_pos hc] at hf
      have : f = "city" := by simpa using hf
      subst this
      refine ⟨cityError, ?_, by decide⟩
      simp [payloadErrors, hc]
    · rw [if_neg hc] at hf
      cases hf
  rcases List.mem_append.mp hf with hf | hf
  · by_cases ha : p.areaMarla.getD 0 ≤ 0
    · rw [if_pos (Or.inl ha)] at hf
      have : f = "areaMarla" := by simpa using hf
      subst this
      refine ⟨"areaMarla must be greater than 0", ?_, by decide⟩
      simp [payloadErrors, ha]
    · by_cases ha2 : 100 < p.areaMarla.getD 0
      · rw [if_pos (Or.inr ha2)] at hf
        have : f = "areaMarla" := by simpa using hf
        subst this
        refine ⟨"areaMarla cannot exceed 100 Marla", ?_, by decide⟩
        simp [payloadErrors, ha, ha2]
      · rw [if_neg (by tauto)] at hf
        cases hf
  rcases List.mem_append.mp hf with hf | hf
  · by_cases hb : p.bedrooms.getD 0 < 0
    · rw [if_pos (Or.inl hb)] at hf
      have : f = "bedrooms" := by simpa using hf
      subst this
      refine ⟨"bedrooms cannot be negative", ?_, by decide⟩
      simp [payloadErrors, hb]
    · by_cases hb2 : 10 < p.bedrooms.getD 0
      · rw [if_pos (Or.inr hb2)] at hf
        have : f = "bedrooms" := by simpa using hf
        subst this
        refine ⟨"bedrooms cannot exceed 10", ?_, by decide⟩
        simp [payloadErrors, hb, hb2]
      · rw [if_neg (by tauto)] at hf
        cases hf
  by_cases hb : p.bathrooms.getD 0 < 0
  · rw [if_pos (Or.inl hb)] at hf
    have : f = "bathrooms" := by simpa using hf
    subst this
    refine ⟨"bathrooms cannot be negative", ?_, by decide⟩
    simp [payloadErrors, hb]
  · by_cases hb2 : 10 < p.bathrooms.getD 0
    · rw [if_pos (Or.inr hb2)] at hf
      have : f = "bathrooms" := by simpa using hf
      subst this
      refine ⟨"bathrooms cannot exceed 10", ?_, by decide⟩
      simp [payloadErrors, hb, hb2]
    · rw [if_neg (by tauto)] at hf
      cases hf

/-- A payload with one required field absent and another field invalid:
propertyType "Castle" is not a valid property type, and city is missing. -/
def mixedInvalidPayload : Payload :=
  { propertyType := some "Castle"
    city := none
    areaMarla := some 10
    bedrooms := some 4
    bathrooms := some 3
    location := none
    purpose := none }

/-- Counterexample to claim C8: on a payload with two failing fields
(missing `city`, invalid `propertyType` value "Castle"), `validatePayload`
returns early with a message listing only the missing field; the invalid
`propertyType` is never mentioned, so not every failing field is reported. -/
theorem validation_aggregation_counterexample :
    validatePayload mixedInvalidPayload =
      (false, "Missing required fields: city", none) ∧
    "Castle" ∉ VALID_PROPERTY_TYPES ∧
    "propertyType" ∈ invalidFields mixedInvalidPayload ∧
    ¬ mentions "Missing required fields: city" "propertyType" := by
  refine ⟨by decide, by decide, by decide, by decide⟩

/-- Claim C8 (amended): when every required field is present,
`validatePayload` aggregates all field-level failures: it returns invalid
with the single `"; "`-joined message containing one error per failing
field — each failing field is mentioned in the message — and the cleaned
payload is `none` (never a partially processed result). When required
fields are missing, it instead returns early naming all missing fields,
without checking the present fields' values. -/
theorem validation_aggregates_all_errors (p : Payload)
    (h1 : p.propertyType.isSome) (h2 : p.city.isSome)
    (h3 : p.areaMarla.isSome) (h4 : p.bedrooms.isSome)
    (h5 : p.bathrooms.isSome) (he : payloadErrors p ≠ []) :
    validatePayload p = (false, pyJoin "; " (payloadErrors p), none) ∧
    ∀ f ∈ invalidFields p, mentions (pyJoin "; " (payloadErrors p)) f := by
  obtain ⟨v1, hv1⟩ := Option.isSome_iff_exists.mp h1
  obtain ⟨v2, hv2⟩ := Option.isSome_iff_exists.mp h2
  obtain ⟨v3, hv3⟩ := Option.isSome_iff_exists.mp h3
  obtain ⟨v4, hv4⟩ := Option.isSome_iff_exists.mp h4
  obtain ⟨v5, hv5⟩ := Option.isSome_iff_exists.mp h5
  have hm : missingFields p = [] := by
    simp [missingFields, hv1, hv2, hv3, hv4, hv5]
  constructor
  · unfold validatePayload
    rw [hm]
    simp [he]
  · intro f hf
    obtain ⟨e, hemem, hinf⟩ := invalid_field_has_error p f hf
    exact hinf.trans (infix_pyJoin e "; " (payloadErrors p) hemem)

/-- A payload with all required fields present and two invalid values. -/
def doubleInvalidPayload : Payload :=
  { propertyType := some "Castle"
    city := some "Paris"
    areaMarla := some 10
    bedrooms := some 4
    bathrooms := some 3
    location := none
    purpose := none }

/-- Witness for the amended C8: both invalid fields are mentioned in the
single joined error message and the cleaned payload is `none`. -/
theorem validation_aggregates_all_errors_witness :
    validatePayload doubleInvalidPayload =
      (false, pyJoin "; " (payloadErrors doubleInvalidPayload), none) ∧
    mentions (pyJoin "; " (payloadErrors doubleInvalidPayload)) "propertyType" ∧
    mentions (pyJoin "; " (payloadErrors doubleInvalidPayload)) "city" :=
  ⟨(validation_aggregates_all_errors doubleInvalidPayload rfl rfl rfl rfl rfl
      (by decide)).1,
   (validation_aggregates_all_errors doubleInvalidPayload rfl rfl rfl rfl rfl
      (by decide)).2 "propertyType" (by decide),
   (validation_aggregates_all_errors doubleInvalidPayload rfl rfl rfl rfl rfl
      (by decide)).2 "city" (by decide)⟩

/-! ## Preprocessing pipeline (n/data_preprocessing.py, scripts/kaggle_train.py) -/

/-- A raw data row as consumed by `DataPreprocessor` after the city /
property-type filters. -/
structure Record where
  city : String
  location : String
  property_type : String
  purpose : String
  bedrooms : ℚ
  baths : ℚ
  Area_in_Marla : ℚ
  price : ℚ
deriving DecidableEq

/-- `roomsPerMarla = totalRooms / Area_in_Marla` with
`totalRooms = bedrooms + baths`. -/
def roomsPerMarla (r : Record) : ℚ := (r.bedrooms + r.baths) / r.Area_in_Marla

/-- `self.minRoomsPerMarla = 0.15`. -/
def minRoomsPerMarla : ℚ := 0.15

/-- `self.maxRoomsPerMarla = 1.8`. -/
def maxRoomsPerMarla : ℚ := 1.8

/-- The room-to-area invariant of the spec: the ratio falls in
[0.15, 1.8]. -/
def ratioWithinRange (r : Record) : Prop :=
  minRoomsPerMarla ≤ roomsPerMarla r ∧ roomsPerMarla r ≤ maxRoomsPerMarla

instance (r : Record) : Decidable (ratioWithinRange r) :=
  inferInstanceAs (Decidable (_ ∧ _))

/-- `DataPreprocessor.validateRoomAreaRatios`: keep rows with positive
area whose rooms-per-marla ratio lies within the bounds. -/
def validateRoomAreaRatios (df : List Record) : List Record :=
  let df1 := df.filter (fun r => 0 < r.Area_in_Marla)
  df1.filter (fun r =>
    minRoomsPerMarla ≤ roomsPerMarla r ∧ roomsPerMarla r ≤ maxRoomsPerMarla)

/-- `DataPreprocessor.handleOutliers`: hard caps, then the price-quantile
cut. The 0.5% and 99.5% price quantiles are computed from the capped
frame in the source; they are passed here as values since any bounds give
a subset. -/
def handleOutliers (priceQ005 priceQ995 : ℚ) (df : List Record) : List Record :=
  let df1 := df.filter (fun r =>
    0 < r.price ∧ r.bedrooms ≤ 10 ∧ r.baths ≤ 10 ∧
    r.Area_in_Marla ≤ 100 ∧ 1 ≤ r.Area_in_Marla)
  df1.filter (fun r => priceQ005 ≤ r.price ∧ r.price ≤ priceQ995)

/-- `DataPreprocessor.groupRareLocations`: a location seen fewer than 20
times is renamed to the reserved bucket. -/
def groupRareLocations (df : List Record) : List Record :=
  df.map (fun r =>
    if df.countP (fun s => s.location == r.location) < 20 then
      { r with location := "Other_Location" }
    else r)

/-- The three target cities of the n pipeline. -/
def targetCities : List String := ["Karachi", "Lahore", "Islamabad"]

/-- `DataPreprocessor.balanceDataset`: down-sample each city to the
smallest per-city count, then shuffle. The pandas `DataFrame.sample`
calls (seeded) are modelled by the `sample` and `shuffle` parameters;
both return rows of their input frame. -/
def balanceDataset (sample : List Record → ℕ → List Record)
    (shuffle : List Record → List Record) (df : List Record) : List Record :=
  let cityDfs := targetCities.map (fun c => df.filter (fun r => r.city == c))
  let counts := (cityDfs.map List.length).filter (fun n => n ≠ 0)
  let minCount := counts.min?.getD 0
  let balanced := (cityDfs.map (fun cityDf =>
    if minCount < cityDf.length then sample cityDf minCount else cityDf)).join
  shuffle balanced

/-- pandas `.median()` over a list of rationals: middle element of the
sorted list, or the mean of the two middle elements. -/
def median (l : List ℚ) : ℚ :=
  let s := l.mergeSort (fun a b => a ≤ b)
  if s.length % 2 = 1 then s.getD (s.length / 2) 0
  else (s.getD (s.length / 2 - 1) 0 + s.getD (s.length / 2) 0) / 2

/-- A row after `DataPreprocessor.createEngineeredFeatures`: the base
row plus the derived columns. -/
structure EngineeredRecord where
  base : Record
  totalRooms : ℚ
  cityMedianPrice : ℚ
  locationMedianPrice : ℚ
deriving DecidableEq

/-- `DataPreprocessor.createEngineeredFeatures`: add `totalRooms` and the
grouped median-price columns; base columns are unchanged. -/
def createEngineeredFeatures (df : List Record) : List EngineeredRecord :=
  df.map (fun r =>
    { base := r
      totalRooms := r.bedrooms + r.baths
      cityMedianPrice :=
        median ((df.filter (fun s => s.city == r.city)).map (·.price))
      locationMedianPrice :=
        median ((df.filter (fun s => s.location == r.location)).map (·.price)) })

/-- The pipeline stages that run after the validity filter, in
`DataPreprocessor.preprocess` order: outlier removal, rare-location
grouping, balancing, feature engineering. -/
def preprocessAfterValidity (priceQ005 priceQ995 : ℚ)
    (sample : List Record → ℕ → List Record)
    (shuffle : List Record → List Record)
    (df : List Record) : List EngineeredRecord :=
  createEngineeredFeatures
    (balanceDataset sample shuffle
      (groupRareLocations
        (handleOutliers priceQ005 priceQ995 df)))

/-- The ratio filter of `load_and_preprocess_data` (scripts/kaggle_train.py):
keep rows whose rooms-per-marla ratio lies in [0.15, 1.8]. -/
def kaggleRatioFilter (df : List Record) : List Record :=
  df.filter (fun r => 0.15 ≤ roomsPerMarla r ∧ roomsPerMarla r ≤ 1.8)

/-- The subsequent outlier filter of `load_and_preprocess_data`. -/
def kaggleOutlierFilter (df : List Record) : List Record :=
  df.filter (fun r =>
    100000 < r.price ∧ r.bedrooms ≤ 15 ∧ r.baths ≤ 15 ∧ 0 < r.Area_in_Marla)

/-- Membership in the output of a validity filter gives the ratio bounds. -/
lemma ratio_of_mem_validate (df : List Record) (r : Record)
    (hr : r ∈ validateRoomAreaRatios df) : ratioWithinRange r := by
  unfold validateRoomAreaRatios at hr
  have := (List.mem_filter.mp hr).2
  simpa [ratioWithinRange] using this

/-- `handleOutliers` only removes rows. -/
lemma mem_of_mem_handleOutliers (q1 q2 : ℚ) (df : List Record) (r : Record)
    (hr : r ∈ handleOutliers q1 q2 df) : r ∈ df := by
  unfold handleOutliers at hr
  exact (List.mem_filter.mp (List.mem_filter.mp hr).1).1

/-- `groupRareLocations` only renames locations: every output row agrees
with some input row on every non-location column. -/
lemma mem_groupRareLocations (df : List Record) (x : Record)
    (hx : x ∈ groupRareLocations df) :
    ∃ y ∈ df, x.bedrooms = y.bedrooms ∧ x.baths = y.baths ∧
      x.Area_in_Marla = y.Area_in_Marla ∧ x.city = y.city ∧
      x.price = y.price := by
  unfold groupRareLocations at hx
  obtain ⟨y, hy, hxy⟩ := List.mem_map.mp hx
  refine ⟨y, hy, ?_⟩
  by_cases hc : df.countP (fun s => s.location == y.location) < 20
  · rw [if_pos hc] at hxy
    subst hxy
    exact ⟨rfl, rfl, rfl, rfl, rfl⟩
  · rw [if_neg hc] at hxy
    subst hxy
    exact ⟨rfl, rfl, rfl, rfl, rfl⟩

/-- `balanceDataset` only selects rows, provided the sampler and the
shuffler return rows of their inputs. -/
lemma mem_of_mem_balanceDataset
    (sample : List Record → ℕ → List Record)
    (shuffle : List Record → List Record)
    (hsample : ∀ l n x, x ∈ sample l n → x ∈ l)
    (hshuffle : ∀ l x, x ∈ shuffle l → x ∈ l)
    (df : List Record) (x : Record)
    (hx : x ∈ balanceDataset sample shuffle df) : x ∈ df := by
  unfold balanceDataset at hx
  have hx1 := hshuffle _ _ hx
  obtain ⟨sub, hsub, hxsub⟩ := List.mem_join.mp hx1
  obtain ⟨cityDf, hcity, hcdef⟩ := List.mem_map.mp hsub
  obtain ⟨c, _, hcdf⟩ := List.mem_map.mp hcity
  subst hcdef
  by_cases hlt : (((targetCities.map
      (fun c => df.filter (fun r => r.city == c))).map List.length).filter
        (fun n => n ≠ 0)).min?.getD 0 < cityDf.length
  · rw [if_pos hlt] at hxsub
    have := hsample _ _ _ hxsub
    rw [← hcdf] at this
    exact (List.mem_filter.mp this).1
  · rw [if_neg hlt] at hxsub
    rw [← hcdf] at hxsub
    exact (List.mem_filter.mp hxsub).1

/-- Claim C5: every record surviving the validity filter satisfies
`0.15 ≤ (bedrooms + baths) / Area_in_Marla ≤ 1.8`, and no later pipeline
stage (outlier removal, rare-location grouping, balancing, feature
engineering) reintroduces a record outside this range: every row reaching
feature composition still satisfies the bounds. The same holds for the
kaggle training script's validity filters. -/
theorem room_area_ratio_invariant
    (priceQ005 priceQ995 : ℚ)
    (sample : List Record → ℕ → List Record)
    (shuffle : List Record → List Record)
    (hsample : ∀ l n x, x ∈ sample l n → x ∈ l)
    (hshuffle : ∀ l x, x ∈ shuffle l → x ∈ l)
    (df : List Record) :
    (∀ r ∈ validateRoomAreaRatios df, ratioWithinRange r) ∧
    (∀ e ∈ preprocessAfterValidity priceQ005 priceQ995 sample shuffle
        (validateRoomAreaRatios df), ratioWithinRange e.base) ∧
    (∀ r ∈ kaggleOutlierFilter (kaggleRatioFilter df), ratioWithinRange r) := by
  refine ⟨fun r hr => ratio_of_mem_validate df r hr, ?_, ?_⟩
  · intro e he
    unfold preprocessAfterValidity at he
    obtain ⟨y, hy, hey⟩ := List.mem_map.mp he
    have hbase : e.base = y := by rw [← hey]
    rw [hbase]
    have hy2 := mem_of_mem_balanceDataset sample shuffle hsample hshuffle _ y hy
    obtain ⟨z, hz, hbz⟩ := mem_groupRareLocations _ y hy2
    have hz2 := mem_of_mem_handleOutliers priceQ005 priceQ995 _ z hz
    have hzr := ratio_of_mem_validate df z hz2
    have hratio : roomsPerMarla y = roomsPerMarla z := by
      unfold roomsPerMarla
      rw [hbz.1, hbz.2.1, hbz.2.2.1]
    unfold ratioWithinRange
    rw [hratio]
    exact hzr
  · intro r hr
    unfold kaggleOutlierFilter at hr
    have hm := (List.mem_filter.mp hr).1
    unfold kaggleRatioFilter at hm
    have h2 := (List.mem_filter.mp hm).2
    have h3 : (0.15 : ℚ) ≤ roomsPerMarla r ∧ roomsPerMarla r ≤ 1.8 := by
      simpa using h2
    exact ⟨h3.1, h3.2⟩

/-- A record whose ratio `(3 + 2) / 5 = 1` lies within [0.15, 1.8]. -/
def goodRecord : Record :=
  { city := "Lahore"
    location := "Johar Town"
    property_type := "House"
    purpose := "For Sale"
    bedrooms := 3
    baths := 2
    Area_in_Marla := 5
    price := 15000000 }

/-- A record whose ratio `(0 + 0) / 5 = 0` falls below 0.15. -/
def badRecord : Record :=
  { city := "Lahore"
    location := "Johar Town"
    property_type := "House"
    purpose := "For Sale"
    bedrooms := 0
    baths := 0
    Area_in_Marla := 5
    price := 15000000 }

/-- Witness for C5: the validity filter on a concrete two-row frame keeps
exactly the in-range record, which satisfies the ratio bounds; the sampler
is instantiated with `List.take` and the shuffler with the identity. -/
theorem room_area_ratio_invariant_witness :
    goodRecord ∈ validateRoomAreaRatios [goodRecord, badRecord] ∧
    ratioWithinRange goodRecord ∧
    validateRoomAreaRatios [goodRecord, badRecord] = [goodRecord] := by
  have heq : validateRoomAreaRatios [goodRecord, badRecord] = [goodRecord] := by
    norm_num [validateRoomAreaRatios, goodRecord, badRecord, roomsPerMarla,
      minRoomsPerMarla, maxRoomsPerMarla, List.filter]
  have hmem : goodRecord ∈ validateRoomAreaRatios [goodRecord, badRecord] := by
    rw [heq]
    exact List.mem_singleton.mpr rfl
  exact ⟨hmem,
    (room_area_ratio_invariant 0 1000000000 (fun l n => l.take n) id
      (fun l n x hx => List.mem_of_mem_take hx) (fun l x hx => hx)
      [goodRecord, badRecord]).1 goodRecord hmem, heq⟩

end SarmayaGhar
